import Mathlib

/-!
Verification development for the GSM measurement-to-location estimation
engine of `gsmlocation.py` (classes `TrianguladorGSM`, `MapeadorGSM`,
`AnalizadorGSMAvanzado`).

Modelling conventions:
* Python floats are modelled as exact real numbers (`ℝ`).
* Timestamps (`datetime`) are modelled as integer numbers of seconds, so
  `timedelta(minutes=5)` becomes the constant `300`.
* Python ints are `ℤ`; cell identifier fields are `String`s.
* `scipy.optimize.minimize` is an external numerical routine; it is modelled
  as an abstract `Optimizador` that, given an objective and a start point,
  returns a point and a success flag.  scipy's `resultado.fun` field always
  equals the objective evaluated at `resultado.x`, which is how the
  embedding computes it.
-/

/-- `CeldaGSM` dataclass: one observation of a tower at a point in time. -/
structure CeldaGSM where
  mcc : String
  mnc : String
  lac : String
  cell_id : String
  arfcn : ℤ
  bsic : ℤ
  signal_strength : ℤ
  latitude : ℚ
  longitude : ℚ
  timestamp : ℤ
  tipo_celda : String
deriving DecidableEq

/-- An entry of the tower database `estaciones_base`: a dict holding the
keys `lat` and `lon`. -/
structure Ubicacion where
  lat : ℝ
  lon : ℝ

/-- `UbicacionEstimada` dataclass: result of one estimation attempt. -/
structure UbicacionEstimada where
  latitude : ℝ
  longitude : ℝ
  precision : ℝ
  metodo : String
  celdas_utilizadas : List CeldaGSM
  timestamp : ℤ

/-- Cell key, the hyphen-joined f-string of `mcc`, `mnc`, `lac` and
`cell_id`, used by both `agregar_medicion_celda` and
`_obtener_ubicacion_celda`. -/
def clave (c : CeldaGSM) : String :=
  c.mcc ++ "-" ++ c.mnc ++ "-" ++ c.lac ++ "-" ++ c.cell_id

/-- `math.radians`. -/
noncomputable def radians (x : ℝ) : ℝ := x * Real.pi / 180

/-- `math.atan2 y x` (exact-real semantics; the sign of a zero is not
modelled, which is irrelevant here since it is only applied to square
roots). -/
noncomputable def atan2 (y x : ℝ) : ℝ :=
  if 0 < x then Real.arctan (y / x)
  else if x < 0 then
    (if 0 ≤ y then Real.arctan (y / x) + Real.pi
     else Real.arctan (y / x) - Real.pi)
  else
    (if 0 < y then Real.pi / 2 else if y < 0 then -(Real.pi / 2) else 0)

/-- The intermediate value `a` of `TrianguladorGSM._calcular_distancia`:
`a = sin(dlat/2)*sin(dlat/2) + cos(radians(lat1))*cos(radians(lat2))*sin(dlon/2)*sin(dlon/2)`. -/
noncomputable def hav_a (lat1 lon1 lat2 lon2 : ℝ) : ℝ :=
  Real.sin (radians (lat2 - lat1) / 2) * Real.sin (radians (lat2 - lat1) / 2) +
    Real.cos (radians lat1) * Real.cos (radians lat2) *
      (Real.sin (radians (lon2 - lon1) / 2) * Real.sin (radians (lon2 - lon1) / 2))

/-- `TrianguladorGSM._calcular_distancia`: haversine distance in km,
`c = 2*atan2(sqrt(a), sqrt(1-a)); return R*c` with `R = 6371`. -/
noncomputable def calcular_distancia (lat1 lon1 lat2 lon2 : ℝ) : ℝ :=
  6371 * (2 * atan2 (Real.sqrt (hav_a lat1 lon1 lat2 lon2))
    (Real.sqrt (1 - hav_a lat1 lon1 lat2 lon2)))

lemma hav_a_key (lat1 lon1 lat2 lon2 : ℝ) :
    hav_a lat1 lon1 lat2 lon2 =
      ((1 - Real.sin (radians (lon2 - lon1) / 2) ^ 2) *
          (1 - Real.cos (radians lat1 - radians lat2)) +
        Real.sin (radians (lon2 - lon1) / 2) ^ 2 *
          (1 + Real.cos (radians lat1 + radians lat2))) / 2 := by
  have hdlat : radians (lat2 - lat1) = radians lat2 - radians lat1 := by
    unfold radians; ring
  have hs : Real.sin (radians (lat2 - lat1) / 2) * Real.sin (radians (lat2 - lat1) / 2) =
      (1 - Real.cos (radians lat2 - radians lat1)) / 2 := by
    have h2 : 2 * ((radians lat2 - radians lat1) / 2) = radians lat2 - radians lat1 := by
      ring
    calc Real.sin (radians (lat2 - lat1) / 2) * Real.sin (radians (lat2 - lat1) / 2)
        = Real.sin ((radians lat2 - radians lat1) / 2) ^ 2 := by rw [hdlat]; ring
      _ = 1 / 2 - Real.cos (2 * ((radians lat2 - radians lat1) / 2)) / 2 :=
          Real.sin_sq_eq_half_sub _
      _ = (1 - Real.cos (radians lat2 - radians lat1)) / 2 := by rw [h2]; ring
  have hc : Real.cos (radians lat1) * Real.cos (radians lat2) =
      (Real.cos (radians lat1 - radians lat2) + Real.cos (radians lat1 + radians lat2)) / 2 := by
    rw [Real.cos_sub, Real.cos_add]; ring
  have hcc : Real.cos (radians lat2 - radians lat1) =
      Real.cos (radians lat1 - radians lat2) := by
    rw [← Real.cos_neg]; ring_nf
  unfold hav_a
  rw [hs, hc, hcc]; ring

lemma hav_a_nonneg (lat1 lon1 lat2 lon2 : ℝ) : 0 ≤ hav_a lat1 lon1 lat2 lon2 := by
  rw [hav_a_key]
  have h1 : Real.sin (radians (lon2 - lon1) / 2) ^ 2 ≤ 1 := Real.sin_sq_le_one _
  have h2 : 0 ≤ Real.sin (radians (lon2 - lon1) / 2) ^ 2 := sq_nonneg _
  have h3 : Real.cos (radians lat1 - radians lat2) ≤ 1 := Real.cos_le_one _
  have h4 : -1 ≤ Real.cos (radians lat1 + radians lat2) := Real.neg_one_le_cos _
  nlinarith

lemma hav_a_le_one (lat1 lon1 lat2 lon2 : ℝ) : hav_a lat1 lon1 lat2 lon2 ≤ 1 := by
  rw [hav_a_key]
  have h1 : Real.sin (radians (lon2 - lon1) / 2) ^ 2 ≤ 1 := Real.sin_sq_le_one _
  have h2 : 0 ≤ Real.sin (radians (lon2 - lon1) / 2) ^ 2 := sq_nonneg _
  have h3 : -1 ≤ Real.cos (radians lat1 - radians lat2) := Real.neg_one_le_cos _
  have h4 : Real.cos (radians lat1 + radians lat2) ≤ 1 := Real.cos_le_one _
  nlinarith

/-- C8: the haversine implementation's radicand `a` lies in `[0,1]` for every
pair of real coordinate inputs, hence both square-root arguments `a` and
`1 - a` lie in `[0,1]` and (in the exact-real model) neither square root is
taken of a negative or greater-than-one radicand.  (The source contains no
explicit clamp; the bound holds mathematically for all real inputs.) -/
theorem C8_radicando_en_cero_uno (lat1 lon1 lat2 lon2 : ℝ) :
    0 ≤ hav_a lat1 lon1 lat2 lon2 ∧ hav_a lat1 lon1 lat2 lon2 ≤ 1 ∧
      0 ≤ 1 - hav_a lat1 lon1 lat2 lon2 ∧ 1 - hav_a lat1 lon1 lat2 lon2 ≤ 1 := by
  refine ⟨hav_a_nonneg _ _ _ _, hav_a_le_one _ _ _ _, ?_, ?_⟩
  · linarith [hav_a_le_one lat1 lon1 lat2 lon2]
  · linarith [hav_a_nonneg lat1 lon1 lat2 lon2]

/-- `np.average(xs, weights=ws)`: weighted mean, `dot(ws, xs) / sum(ws)`. -/
noncomputable def npAverage (xs ws : List ℝ) : ℝ :=
  (List.zipWith (fun w x => w * x) ws xs).sum / ws.sum

/-- `np.mean(xs)`. -/
noncomputable def npMean (xs : List ℝ) : ℝ := xs.sum / (xs.length : ℝ)

/-- `TrianguladorGSM._modelo_propagacion_rssi`: log-distance path loss,
`PL0 - 10*3.0*log10(max(distancia*1000, 1))`. -/
noncomputable def modelo_propagacion_rssi (distancia : ℝ) (rssi_referencia : ℤ) : ℝ :=
  (rssi_referencia : ℝ) - 10 * 3.0 * Real.logb 10 (max (distancia * 1000) 1)

/-- `TrianguladorGSM._rssi_a_tiempo`: `max(-rssi / 100, 0.001)` (µs). -/
noncomputable def rssi_a_tiempo (rssi : ℤ) : ℝ :=
  max (-(rssi : ℝ) / 100) 0.001

/-- Result of a `scipy.optimize.minimize` call: the point found and the
success flag.  (`resultado.fun` is recovered as the objective at `x`.) -/
structure ResultadoOpt where
  x : ℝ × ℝ
  success : Bool

/-- Abstract numerical optimizer standing for `scipy.optimize.minimize`
(the choice of method and bounds is not modelled). -/
structure Optimizador where
  run : ((ℝ × ℝ) → ℝ) → (ℝ × ℝ) → ResultadoOpt

/-- The objective `funcion_error` of `TrianguladorGSM._triangulacion_rssi`:
sum over cells of `|rssi_esperado - signal_strength|`. -/
noncomputable def funcion_error_rssi (celdas : List (CeldaGSM × Ubicacion)) (pos : ℝ × ℝ) : ℝ :=
  (celdas.map (fun p =>
    |modelo_propagacion_rssi (calcular_distancia pos.1 pos.2 p.2.lat p.2.lon)
        p.1.signal_strength - (p.1.signal_strength : ℝ)|)).sum

/-- `TrianguladorGSM._triangulacion_rssi`. -/
noncomputable def triangulacion_rssi (opt : Optimizador)
    (celdas : List (CeldaGSM × Ubicacion)) (ahora : ℤ) : Option UbicacionEstimada :=
  let lat_inicial := npMean (celdas.map (fun p => p.2.lat))
  let lon_inicial := npMean (celdas.map (fun p => p.2.lon))
  let resultado := opt.run (funcion_error_rssi celdas) (lat_inicial, lon_inicial)
  if resultado.success then
    some { latitude := resultado.x.1
           longitude := resultado.x.2
           precision := funcion_error_rssi celdas resultado.x
           metodo := "RSSI"
           celdas_utilizadas := celdas.map (fun p => p.1)
           timestamp := ahora }
  else none

/-- The objective `funcion_error` of `TrianguladorGSM._triangulacion_toa`:
sum over `(lat_bs, lon_bs, tiempo)` of `|distancia/300000 - tiempo|`. -/
noncomputable def funcion_error_toa (tiempos : List (ℝ × ℝ × ℝ)) (pos : ℝ × ℝ) : ℝ :=
  (tiempos.map (fun t =>
    |calcular_distancia pos.1 pos.2 t.1 t.2.1 / 300000 - t.2.2|)).sum

/-- `TrianguladorGSM._triangulacion_toa`. -/
noncomputable def triangulacion_toa (opt : Optimizador)
    (celdas : List (CeldaGSM × Ubicacion)) (ahora : ℤ) : Option UbicacionEstimada :=
  let tiempos := celdas.map (fun p => (p.2.lat, p.2.lon, rssi_a_tiempo p.1.signal_strength))
  let lat_inicial := npMean (tiempos.map (fun t => t.1))
  let lon_inicial := npMean (tiempos.map (fun t => t.2.1))
  let resultado := opt.run (funcion_error_toa tiempos) (lat_inicial, lon_inicial)
  if resultado.success then
    some { latitude := resultado.x.1
           longitude := resultado.x.2
           precision := funcion_error_toa tiempos resultado.x
           metodo := "TOA"
           celdas_utilizadas := celdas.map (fun p => p.1)
           timestamp := ahora }
  else none

/-- The raw weight list of `TrianguladorGSM._metodo_centroide`:
`pesos.append(celda.signal_strength)`. -/
noncomputable def pesos_centroide (celdas : List (CeldaGSM × Ubicacion)) : List ℝ :=
  celdas.map (fun p => (p.1.signal_strength : ℝ))

/-- `np.sum(pesos)` of the centroid weights (the signal strengths are
integers, so the sum is an integer). -/
def total_senal (celdas : List (CeldaGSM × Ubicacion)) : ℤ :=
  (celdas.map (fun p => p.1.signal_strength)).sum

/-- The normalized weights of `_metodo_centroide`: `pesos / np.sum(pesos)`
when the sum is positive, otherwise `np.ones(len(pesos)) / len(pesos)`. -/
noncomputable def pesos_normalizados (celdas : List (CeldaGSM × Ubicacion)) : List ℝ :=
  if 0 < total_senal celdas then
    (pesos_centroide celdas).map (fun w => w / ((total_senal celdas : ℤ) : ℝ))
  else
    List.replicate celdas.length ((1 : ℝ) / (celdas.length : ℝ))

/-- `lat_centroide = np.average(lats, weights=pesos)`. -/
noncomputable def lat_centroide (celdas : List (CeldaGSM × Ubicacion)) : ℝ :=
  npAverage (celdas.map (fun p => p.2.lat)) (pesos_normalizados celdas)

/-- `lon_centroide = np.average(lons, weights=pesos)`. -/
noncomputable def lon_centroide (celdas : List (CeldaGSM × Ubicacion)) : ℝ :=
  npAverage (celdas.map (fun p => p.2.lon)) (pesos_normalizados celdas)

/-- The argument handed to `np.sqrt` when the centroid computes its
precision:
`np.average((lats-lat_c)**2, weights=pesos) + np.average((lons-lon_c)**2, weights=pesos)`.
Because the normalized weights can have mixed signs (see
`pesos_normalizados`), this "weighted variance" can be negative on
reachable inputs. -/
noncomputable def radicando_centroide (celdas : List (CeldaGSM × Ubicacion)) : ℝ :=
  npAverage ((celdas.map (fun p => p.2.lat)).map (fun x => (x - lat_centroide celdas) ^ 2))
      (pesos_normalizados celdas) +
    npAverage ((celdas.map (fun p => p.2.lon)).map (fun x => (x - lon_centroide celdas) ^ 2))
      (pesos_normalizados celdas)

/-- The centroid's precision, `np.sqrt(radicando)`.  CAVEAT: `np.sqrt` of a
negative argument is nan, which the exact reals cannot represent;
`Real.sqrt` returns 0 there instead, so this embedding is faithful only
where `0 ≤ radicando_centroide celdas`.  The C9 evaluation theorem
exhibits a reachable input whose radicand is −2, where the source
therefore produces a nan precision.  (The square roots inside
`calcular_distancia` are unaffected: their radicand provably lies in
`[0,1]` for all inputs, see C8.) -/
noncomputable def precision_centroide (celdas : List (CeldaGSM × Ubicacion)) : ℝ :=
  Real.sqrt (radicando_centroide celdas)

/-- `TrianguladorGSM._metodo_centroide` (returns unconditionally: the Python
function has no failure path). -/
noncomputable def metodo_centroide (celdas : List (CeldaGSM × Ubicacion)) (ahora : ℤ) :
    UbicacionEstimada :=
  { latitude := lat_centroide celdas
    longitude := lon_centroide celdas
    precision := precision_centroide celdas
    metodo := "CENTROIDE"
    celdas_utilizadas := celdas.map (fun p => p.1)
    timestamp := ahora }

/-- `TrianguladorGSM._obtener_ubicacion_celda` composed over a database
`estaciones_base : key → Option Ubicacion`; the filter loop of
`triangular_ubicacion` / `_estimar_ubicacion_2_celdas` building
`celdas_con_ubicacion`. -/
def celdas_con_ubicacion (db : String → Option Ubicacion) (celdas : List CeldaGSM) :
    List (CeldaGSM × Ubicacion) :=
  celdas.filterMap (fun c => (db (clave c)).map (fun u => (c, u)))

/-- `TrianguladorGSM._estimar_ubicacion_2_celdas`. -/
noncomputable def estimar_ubicacion_2_celdas (db : String → Option Ubicacion)
    (celdas : List CeldaGSM) (ahora : ℤ) : Option UbicacionEstimada :=
  if celdas.length < 2 then none
  else
    match celdas_con_ubicacion db celdas with
    | (celda1, ubic1) :: (celda2, ubic2) :: _ =>
      let rssi_total : ℤ := celda1.signal_strength + celda2.signal_strength
      let peso1 : ℝ := if 0 < rssi_total then
          (celda1.signal_strength : ℝ) / ((rssi_total : ℤ) : ℝ) else 0.5
      let peso2 : ℝ := if 0 < rssi_total then
          (celda2.signal_strength : ℝ) / ((rssi_total : ℤ) : ℝ) else 0.5
      let lat_estimada := ubic1.lat * peso1 + ubic2.lat * peso2
      let lon_estimada := ubic1.lon * peso1 + ubic2.lon * peso2
      let distancia_celdas := calcular_distancia ubic1.lat ubic1.lon ubic2.lat ubic2.lon
      some { latitude := lat_estimada
             longitude := lon_estimada
             precision := distancia_celdas * 0.5
             metodo := "2_CELDAS"
             celdas_utilizadas := celdas
             timestamp := ahora }
    | _ => none

/-- The raw combining weights of `TrianguladorGSM._combinar_resultados`:
`pesos = [1/(p + 0.001) for p in precisiones]`. -/
noncomputable def pesos_combinar (resultados : List UbicacionEstimada) : List ℝ :=
  resultados.map (fun r => 1 / (r.precision + 0.001))

/-- `pesos = np.array(pesos) / np.sum(pesos)`. -/
noncomputable def pesos_combinar_norm (resultados : List UbicacionEstimada) : List ℝ :=
  (pesos_combinar resultados).map (fun w => w / (pesos_combinar resultados).sum)

/-- `TrianguladorGSM._combinar_resultados`. -/
noncomputable def combinar_resultados (resultados : List UbicacionEstimada) (ahora : ℤ) :
    UbicacionEstimada :=
  { latitude := npAverage (resultados.map (fun r => r.latitude)) (pesos_combinar_norm resultados)
    longitude := npAverage (resultados.map (fun r => r.longitude)) (pesos_combinar_norm resultados)
    precision := npAverage (resultados.map (fun r => r.precision)) (pesos_combinar_norm resultados)
    metodo := "COMBINADO"
    celdas_utilizadas := (resultados.map (fun r => r.celdas_utilizadas)).flatten
    timestamp := ahora }

/-- `TrianguladorGSM.agregar_medicion_celda`: append to the key's history,
then `pop(0)` if the length exceeds 50.  `historial_mediciones` is a
`defaultdict(list)`, modelled as a total function whose default is `[]`. -/
def agregar_medicion_celda (historial : String → List CeldaGSM) (celda : CeldaGSM) :
    String → List CeldaGSM :=
  fun k =>
    if k = clave celda then
      let l := historial (clave celda) ++ [celda]
      if 50 < l.length then l.tail else l
    else historial k

/-- `TrianguladorGSM.triangular_ubicacion`. -/
noncomputable def triangular_ubicacion (opt : Optimizador) (db : String → Option Ubicacion)
    (mediciones_actuales : List CeldaGSM) (ahora : ℤ) : Option UbicacionEstimada :=
  if mediciones_actuales.length < 3 then
    estimar_ubicacion_2_celdas db mediciones_actuales ahora
  else
    let ccu := celdas_con_ubicacion db mediciones_actuales
    if ccu.length < 2 then none
    else
      let resultados :=
        ((triangulacion_rssi opt ccu ahora).toList ++ (triangulacion_toa opt ccu ahora).toList)
          ++ [metodo_centroide ccu ahora]
      if resultados.isEmpty then none
      else some (combinar_resultados resultados ahora)

/-- Pointwise update of a keyed map (mutation of one entry of a
`defaultdict`). -/
def actualizar {α : Type} (f : String → α) (k : String) (v : α) : String → α :=
  fun s => if s = k then v else f s

/-- `MapeadorGSM.actualizar_trayectoria`: append the estimate to the IMSI's
trajectory, then `pop(0)` if the length exceeds 100. -/
def actualizar_trayectoria (trayectorias : String → List UbicacionEstimada)
    (imsi : String) (ubicacion : UbicacionEstimada) : String → List UbicacionEstimada :=
  let l := trayectorias imsi ++ [ubicacion]
  actualizar trayectorias imsi (if 100 < l.length then l.tail else l)

/-- The mutable state of `AnalizadorGSMAvanzado` (with the triangulator's
history and the mapper's trajectories inlined; all the `defaultdict`s are
total functions defaulting to `[]`). -/
structure AnalizadorState where
  historial_mediciones : String → List CeldaGSM
  mediciones_actuales : String → List CeldaGSM
  ubicaciones_estimadas : List UbicacionEstimada
  trayectorias : String → List UbicacionEstimada

/-- The state right after `AnalizadorGSMAvanzado.__init__`. -/
def estadoInicial : AnalizadorState :=
  { historial_mediciones := fun _ => []
    mediciones_actuales := fun _ => []
    ubicaciones_estimadas := []
    trayectorias := fun _ => [] }

/-- `AnalizadorGSMAvanzado._limpiar_mediciones_antiguas`: for every IMSI keep
only the measurements with `(ahora - celda.timestamp) < timedelta(minutes=5)`. -/
def limpiar_mediciones_antiguas (mediciones : String → List CeldaGSM) (ahora : ℤ) :
    String → List CeldaGSM :=
  fun imsi => (mediciones imsi).filter (fun celda => decide (ahora - celda.timestamp < 300))

/-- `AnalizadorGSMAvanzado.procesar_medicion_celda`, one ingest call at wall
time `ahora`: (1) record into the global history, (2) append to the IMSI's
window, (3) if the window now has ≥ 2 entries, triangulate over it and, on
success, store the estimate and extend the trajectory, (4) purge entries
older than 5 minutes from every window.  The purge runs AFTER the
triangulation attempt, exactly as in the source. -/
noncomputable def procesar_medicion_celda (opt : Optimizador) (db : String → Option Ubicacion)
    (st : AnalizadorState) (imsi : String) (celda : CeldaGSM) (ahora : ℤ) : AnalizadorState :=
  let historial := agregar_medicion_celda st.historial_mediciones celda
  let ventana := st.mediciones_actuales imsi ++ [celda]
  let med := actualizar st.mediciones_actuales imsi ventana
  let resultado :=
    if 2 ≤ ventana.length then triangular_ubicacion opt db ventana ahora else none
  { historial_mediciones := historial
    mediciones_actuales := limpiar_mediciones_antiguas med ahora
    ubicaciones_estimadas := st.ubicaciones_estimadas ++ resultado.toList
    trayectorias :=
      match resultado with
      | some ubicacion => actualizar_trayectoria st.trayectorias imsi ubicacion
      | none => st.trayectorias }

lemma sum_map_div (l : List ℝ) (c : ℝ) :
    (l.map (fun x => x / c)).sum = l.sum / c := by
  induction l with
  | nil => simp
  | cons a t ih => simp [ih, add_div]

lemma sum_map_mul_left (l : List ℝ) (c : ℝ) :
    (l.map (fun x => c * x)).sum = c * l.sum := by
  induction l with
  | nil => simp
  | cons a t ih => simp [ih, mul_add]

lemma zipWith_mul_map_div_left (ws xs : List ℝ) (c : ℝ) :
    List.zipWith (fun w x => w * x) (ws.map (fun w => w / c)) xs =
      (List.zipWith (fun w x => w * x) ws xs).map (fun y => y / c) := by
  induction ws generalizing xs with
  | nil => simp
  | cons w t ih =>
    cases xs with
    | nil => simp
    | cons x xt => simp [ih, div_mul_eq_mul_div]

/-- `np.average` is invariant under rescaling all weights by a nonzero
constant; in particular normalizing the weights to sum 1 does not change
the weighted mean. -/
lemma npAverage_map_div (xs ws : List ℝ) (c : ℝ) (hc : c ≠ 0) :
    npAverage xs (ws.map (fun w => w / c)) = npAverage xs ws := by
  unfold npAverage
  rw [zipWith_mul_map_div_left, sum_map_div, sum_map_div]
  rcases eq_or_ne ws.sum 0 with h0 | h0
  · simp [h0]
  · field_simp

lemma zipWith_mul_replicate_left (xs : List ℝ) (c : ℝ) :
    List.zipWith (fun w x => w * x) (List.replicate xs.length c) xs =
      xs.map (fun x => c * x) := by
  induction xs with
  | nil => rfl
  | cons x t ih => simp [List.replicate_succ, ih]

lemma npAverage_uniform (xs : List ℝ) (h : xs ≠ []) :
    npAverage xs (List.replicate xs.length ((1 : ℝ) / (xs.length : ℝ))) =
      xs.sum / (xs.length : ℝ) := by
  have hn : (xs.length : ℝ) ≠ 0 :=
    Nat.cast_ne_zero.mpr (List.length_pos.mpr h).ne'
  unfold npAverage
  rw [zipWith_mul_replicate_left, sum_map_mul_left, List.sum_replicate, nsmul_eq_mul]
  field_simp

lemma sum_zipWith_le (ws xs : List ℝ) (U : ℝ) (hlen : ws.length = xs.length)
    (hw : ∀ w ∈ ws, 0 ≤ w) (hx : ∀ x ∈ xs, x ≤ U) :
    (List.zipWith (fun w x => w * x) ws xs).sum ≤ ws.sum * U := by
  induction ws generalizing xs with
  | nil => simp
  | cons w t ih =>
    cases xs with
    | nil => simp at hlen
    | cons x xt =>
      simp only [List.zipWith_cons_cons, List.sum_cons]
      have h1 : w * x ≤ w * U :=
        mul_le_mul_of_nonneg_left (hx x (by simp)) (hw w (by simp))
      have h2 : (List.zipWith (fun w x => w * x) t xt).sum ≤ t.sum * U :=
        ih xt (by simpa using hlen) (fun w' hw' => hw w' (by simp [hw']))
          (fun x' hx' => hx x' (by simp [hx']))
      calc w * x + (List.zipWith (fun w x => w * x) t xt).sum
          ≤ w * U + t.sum * U := add_le_add h1 h2
        _ = (w + t.sum) * U := by ring

lemma le_sum_zipWith (ws xs : List ℝ) (L : ℝ) (hlen : ws.length = xs.length)
    (hw : ∀ w ∈ ws, 0 ≤ w) (hx : ∀ x ∈ xs, L ≤ x) :
    ws.sum * L ≤ (List.zipWith (fun w x => w * x) ws xs).sum := by
  induction ws generalizing xs with
  | nil => simp
  | cons w t ih =>
    cases xs with
    | nil => simp at hlen
    | cons x xt =>
      simp only [List.zipWith_cons_cons, List.sum_cons]
      have h1 : w * L ≤ w * x :=
        mul_le_mul_of_nonneg_left (hx x (by simp)) (hw w (by simp))
      have h2 : t.sum * L ≤ (List.zipWith (fun w x => w * x) t xt).sum :=
        ih xt (by simpa using hlen) (fun w' hw' => hw w' (by simp [hw']))
          (fun x' hx' => hx x' (by simp [hx']))
      calc (w + t.sum) * L = w * L + t.sum * L := by ring
        _ ≤ w * x + (List.zipWith (fun w x => w * x) t xt).sum := add_le_add h1 h2

lemma npAverage_le (xs ws : List ℝ) (U : ℝ) (hlen : ws.length = xs.length)
    (hw : ∀ w ∈ ws, 0 ≤ w) (hsum : 0 < ws.sum) (hx : ∀ x ∈ xs, x ≤ U) :
    npAverage xs ws ≤ U := by
  unfold npAverage
  rw [div_le_iff₀ hsum]
  calc (List.zipWith (fun w x => w * x) ws xs).sum
      ≤ ws.sum * U := sum_zipWith_le ws xs U hlen hw hx
    _ = U * ws.sum := mul_comm _ _

lemma le_npAverage (xs ws : List ℝ) (L : ℝ) (hlen : ws.length = xs.length)
    (hw : ∀ w ∈ ws, 0 ≤ w) (hsum : 0 < ws.sum) (hx : ∀ x ∈ xs, L ≤ x) :
    L ≤ npAverage xs ws := by
  unfold npAverage
  rw [le_div_iff₀ hsum]
  calc L * ws.sum = ws.sum * L := mul_comm _ _
    _ ≤ (List.zipWith (fun w x => w * x) ws xs).sum := le_sum_zipWith ws xs L hlen hw hx

lemma atan2_nonneg {y x : ℝ} (hy : 0 ≤ y) (hx : 0 ≤ x) : 0 ≤ atan2 y x := by
  unfold atan2
  split_ifs with h1 h2 h3 h4 h5 <;>
    first
      | (rw [← Real.arctan_zero]
         exact Real.arctan_strictMono.monotone (div_nonneg hy h1.le))
      | linarith [Real.pi_pos]
      | exact le_refl 0

lemma calcular_distancia_nonneg (lat1 lon1 lat2 lon2 : ℝ) :
    0 ≤ calcular_distancia lat1 lon1 lat2 lon2 := by
  unfold calcular_distancia
  have h := atan2_nonneg (Real.sqrt_nonneg (hav_a lat1 lon1 lat2 lon2))
    (Real.sqrt_nonneg (1 - hav_a lat1 lon1 lat2 lon2))
  linarith

/-- On the equator the haversine distance reduces to arc length:
`R * |Δlon| in radians`, provided `|Δlon| < 180` degrees. -/
lemma calcular_distancia_ecuador (lon1 lon2 : ℝ) (h : |lon2 - lon1| < 180) :
    calcular_distancia 0 lon1 0 lon2 = 6371 * (Real.pi / 180) * |lon2 - lon1| := by
  have hπ := Real.pi_pos
  set θ := radians (lon2 - lon1) / 2 with hθdef
  have habs : |θ| = |lon2 - lon1| * Real.pi / 360 := by
    rw [hθdef]
    unfold radians
    rw [abs_div, abs_div, abs_mul, abs_of_pos hπ]
    norm_num
    ring
  have hθabs : |θ| < Real.pi / 2 := by
    rw [habs]
    nlinarith
  obtain ⟨hθl, hθu⟩ := abs_lt.mp hθabs
  have ha : hav_a 0 lon1 0 lon2 = Real.sin θ * Real.sin θ := by
    unfold hav_a
    rw [hθdef]
    norm_num [radians]
  have hcos : 0 < Real.cos θ := Real.cos_pos_of_mem_Ioo ⟨hθl, hθu⟩
  have h1 : Real.sqrt (hav_a 0 lon1 0 lon2) = |Real.sin θ| := by
    rw [ha, Real.sqrt_mul_self_eq_abs]
  have h2 : Real.sqrt (1 - hav_a 0 lon1 0 lon2) = Real.cos θ := by
    rw [ha]
    have hpyth : 1 - Real.sin θ * Real.sin θ = Real.cos θ * Real.cos θ := by
      have hh := Real.sin_sq_add_cos_sq θ
      nlinarith
    rw [hpyth, Real.sqrt_mul_self hcos.le]
  have h3 : atan2 |Real.sin θ| (Real.cos θ) = |θ| := by
    unfold atan2
    rw [if_pos hcos]
    rcases le_or_lt 0 θ with hθ0 | hθ0
    · have hs : |Real.sin θ| = Real.sin θ :=
        abs_of_nonneg (Real.sin_nonneg_of_nonneg_of_le_pi hθ0 (by linarith))
      rw [hs, ← Real.tan_eq_sin_div_cos, Real.arctan_tan hθl hθu, abs_of_nonneg hθ0]
    · have hsneg : Real.sin θ < 0 :=
        Real.sin_neg_of_neg_of_neg_pi_lt hθ0 (by linarith)
      have hs : |Real.sin θ| = Real.sin (-θ) := by
        rw [Real.sin_neg, abs_of_neg hsneg]
      have hc : Real.cos θ = Real.cos (-θ) := (Real.cos_neg θ).symm
      rw [hs, hc, ← Real.tan_eq_sin_div_cos,
        Real.arctan_tan (by linarith) (by linarith), abs_of_neg hθ0]
  unfold calcular_distancia
  rw [h1, h2, h3, habs]
  ring

lemma tail_append_of_ne_nil {α : Type} (l l' : List α) (h : l ≠ []) :
    (l ++ l').tail = l.tail ++ l' := by
  cases l with
  | nil => exact absurd rfl h
  | cons a t => simp

/-- Closed form for iterated `agregar_medicion_celda` on one key: starting
from a history holding at most 50 entries for key `k`, after folding in a
batch of measurements all keyed `k`, the key's history is the suffix of
`old ++ batch` obtained by dropping everything but the last 50 entries. -/
lemma foldl_agregar_clave (ms : List CeldaGSM) (k : String) :
    ∀ historial : String → List CeldaGSM, (∀ m ∈ ms, clave m = k) →
      (historial k).length ≤ 50 →
      (ms.foldl agregar_medicion_celda historial) k =
        (historial k ++ ms).drop ((historial k).length + ms.length - 50) := by
  induction ms with
  | nil =>
    intro historial _ hlen
    simp [Nat.sub_eq_zero_of_le hlen]
  | cons m rest ih =>
    intro historial hk hlen
    have hkm : clave m = k := hk m (by simp)
    have hk' : ∀ m' ∈ rest, clave m' = k := fun m' hm' => hk m' (by simp [hm'])
    have hstep : (agregar_medicion_celda historial m) k =
        (if 50 < (historial k ++ [m]).length
         then (historial k ++ [m]).tail else historial k ++ [m]) := by
      unfold agregar_medicion_celda
      rw [hkm]
      simp
    rw [List.foldl_cons]
    by_cases hc : 50 < (historial k ++ [m]).length
    · -- the key's list was full (exactly 50 entries): the oldest is evicted
      have hfull : (historial k).length = 50 := by
        simp at hc
        omega
      have hne : historial k ≠ [] := by
        intro habs
        rw [habs] at hfull
        simp at hfull
      have hv : (agregar_medicion_celda historial m) k = (historial k).tail ++ [m] := by
        rw [hstep, if_pos hc, tail_append_of_ne_nil _ _ hne]
      have hvlen : ((agregar_medicion_celda historial m) k).length ≤ 50 := by
        rw [hv]
        simp [List.length_tail, hfull]
      have := ih (agregar_medicion_celda historial m) hk' hvlen
      rw [this, hv]
      have hlen2 : ((historial k).tail ++ [m]).length + rest.length - 50 = rest.length := by
        simp [List.length_tail, hfull]
      rw [hlen2]
      have hsplit : (historial k ++ m :: rest) = historial k ++ m :: rest := rfl
      have htar : (historial k).length + (m :: rest).length - 50 = rest.length + 1 := by
        simp [hfull]
      rw [htar]
      have hdrop1 : (historial k ++ m :: rest).drop (rest.length + 1) =
          ((historial k ++ m :: rest).drop 1).drop rest.length := by
        rw [List.drop_drop]
        congr 1
        omega
      rw [hdrop1, List.drop_one, tail_append_of_ne_nil _ _ hne]
      congr 1
      simp [List.append_assoc]
    · -- the key's list still fits: plain append
      have hv : (agregar_medicion_celda historial m) k = historial k ++ [m] := by
        rw [hstep, if_neg hc]
      have hvlen : ((agregar_medicion_celda historial m) k).length ≤ 50 := by
        rw [hv]
        simp at hc ⊢
        omega
      have := ih (agregar_medicion_celda historial m) hk' hvlen
      rw [this, hv]
      have harr : (historial k ++ [m]) ++ rest = historial k ++ m :: rest := by
        simp [List.append_assoc]
      rw [harr]
      congr 1
      simp
      omega

/-- C2: per cell key the measurement history is a capacity-50 FIFO buffer:
folding a batch of measurements for one key into an empty history leaves,
in insertion order, exactly the suffix of the batch past its first
`length - 50` elements; for a batch of 51 this is the last 50 inserted,
and the size is exactly 50. -/
theorem C2_historial_fifo_50 (ms : List CeldaGSM) (k : String)
    (hk : ∀ m ∈ ms, clave m = k) (hlen : ms.length = 51) :
    (ms.foldl agregar_medicion_celda (fun _ => [])) k = ms.drop 1 ∧
      ((ms.foldl agregar_medicion_celda (fun _ => [])) k).length = 50 := by
  have h := foldl_agregar_clave ms k (fun _ => []) hk (by simp)
  simp only [List.nil_append, List.length_nil, Nat.zero_add] at h
  rw [hlen] at h
  norm_num at h
  refine ⟨by rw [List.drop_one]; exact h, ?_⟩
  rw [h, List.length_tail, hlen]

/-- A concrete well-formed measurement used by witnesses. -/
def celdaW : CeldaGSM :=
  { mcc := "214", mnc := "07", lac := "1001", cell_id := "42"
    arfcn := 23, bsic := 5, signal_strength := -70
    latitude := 0, longitude := 0, timestamp := 0, tipo_celda := "BCCH" }

/-- C2 witness: inserting the same measurement 51 times leaves the last 50
copies. -/
theorem C2_historial_fifo_50_witness :
    ((List.replicate 51 celdaW).foldl agregar_medicion_celda (fun _ => [])) (clave celdaW) =
        (List.replicate 51 celdaW).drop 1 ∧
      (((List.replicate 51 celdaW).foldl agregar_medicion_celda (fun _ => []))
          (clave celdaW)).length = 50 :=
  C2_historial_fifo_50 (List.replicate 51 celdaW) (clave celdaW)
    (fun m hm => by rw [List.eq_of_mem_replicate hm]) (by simp)

/-- When both cells of a two-cell call resolve but their combined signal
strength is not positive, `_estimar_ubicacion_2_celdas` degrades to equal
weights 0.5/0.5: the estimate is the plain midpoint of the two tower
coordinates and the precision is half the inter-tower distance. -/
lemma estimar_2_celdas_suma_no_positiva (db : String → Option Ubicacion)
    (c1 c2 : CeldaGSM) (u1 u2 : Ubicacion) (ahora : ℤ)
    (h1 : db (clave c1) = some u1) (h2 : db (clave c2) = some u2)
    (hsum : c1.signal_strength + c2.signal_strength ≤ 0) :
    estimar_ubicacion_2_celdas db [c1, c2] ahora =
      some { latitude := (u1.lat + u2.lat) / 2
             longitude := (u1.lon + u2.lon) / 2
             precision := calcular_distancia u1.lat u1.lon u2.lat u2.lon * 0.5
             metodo := "2_CELDAS"
             celdas_utilizadas := [c1, c2]
             timestamp := ahora } := by
  unfold estimar_ubicacion_2_celdas celdas_con_ubicacion
  rw [if_neg (by norm_num)]
  simp only [List.filterMap_cons, h1, h2, Option.map_some', List.filterMap_nil]
  rw [if_neg (not_lt.mpr hsum), if_neg (not_lt.mpr hsum)]
  simp only [Option.some.injEq]
  congr 1 <;> ring

/-- Longitude (degrees) whose equatorial arc from 0 is exactly 10 km:
`x0C4 * π/180 * 6371 = 10`. -/
noncomputable def x0C4 : ℝ := 1800 / (6371 * Real.pi)

/-- Cell A of the C4 scenario: signal strength −60 dBm. -/
def cA4 : CeldaGSM :=
  { mcc := "1", mnc := "1", lac := "1", cell_id := "1", arfcn := 0, bsic := 0
    signal_strength := -60, latitude := 0, longitude := 0, timestamp := 0
    tipo_celda := "BCCH" }

/-- Cell B of the C4 scenario: signal strength −90 dBm. -/
def cB4 : CeldaGSM :=
  { mcc := "1", mnc := "1", lac := "1", cell_id := "2", arfcn := 0, bsic := 0
    signal_strength := -90, latitude := 0, longitude := 0, timestamp := 0
    tipo_celda := "BCCH" }

/-- Tower database of the C4 scenario: A at `(0,0)`, B at `(0, x0C4)`,
which are exactly 10 km apart on the equator. -/
noncomputable def dbC4 : String → Option Ubicacion := fun k =>
  if k = "1-1-1-1" then some ⟨0, 0⟩
  else if k = "1-1-1-2" then some ⟨0, x0C4⟩
  else none

lemma x0C4_pos : 0 < x0C4 := by
  unfold x0C4
  positivity

lemma x0C4_lt_180 : x0C4 < 180 := by
  unfold x0C4
  rw [div_lt_iff₀ (by positivity)]
  nlinarith [Real.pi_gt_three]

lemma dist_AB_C4 : calcular_distancia 0 0 0 x0C4 = 10 := by
  rw [calcular_distancia_ecuador 0 x0C4
    (by rw [sub_zero, abs_of_pos x0C4_pos]; exact x0C4_lt_180)]
  rw [sub_zero, abs_of_pos x0C4_pos]
  unfold x0C4
  field_simp
  ring

lemma dist_mid_A_C4 : calcular_distancia 0 (x0C4 / 2) 0 0 = 5 := by
  rw [calcular_distancia_ecuador (x0C4 / 2) 0
    (by rw [zero_sub, abs_neg, abs_of_pos (by linarith [x0C4_pos])]
        linarith [x0C4_lt_180, x0C4_pos])]
  rw [zero_sub, abs_neg, abs_of_pos (by linarith [x0C4_pos])]
  unfold x0C4
  field_simp
  ring

lemma dist_mid_B_C4 : calcular_distancia 0 (x0C4 / 2) 0 x0C4 = 5 := by
  have hh : x0C4 - x0C4 / 2 = x0C4 / 2 := by ring
  rw [calcular_distancia_ecuador (x0C4 / 2) x0C4
    (by rw [hh, abs_of_pos (by linarith [x0C4_pos])]
        linarith [x0C4_lt_180, x0C4_pos])]
  rw [hh, abs_of_pos (by linarith [x0C4_pos])]
  unfold x0C4
  field_simp
  ring

/-- C4 (amended): for two resolved cells with signal strengths −60 and −90
whose known coordinates are 10 km apart, the combined strength (−150) is not
positive, so the two-cell fallback weights both towers equally: the estimate
is the coordinate midpoint (hence equidistant in coordinate terms, not
strictly closer to the stronger cell), and the precision is
`0.5 × 10 = 5.0` km exactly. -/
theorem C4_dos_celdas_punto_medio (db : String → Option Ubicacion) (c1 c2 : CeldaGSM)
    (u1 u2 : Ubicacion) (ahora : ℤ)
    (h1 : db (clave c1) = some u1) (h2 : db (clave c2) = some u2)
    (hs1 : c1.signal_strength = -60) (hs2 : c2.signal_strength = -90)
    (hdist : calcular_distancia u1.lat u1.lon u2.lat u2.lon = 10) :
    estimar_ubicacion_2_celdas db [c1, c2] ahora =
      some { latitude := (u1.lat + u2.lat) / 2
             longitude := (u1.lon + u2.lon) / 2
             precision := 5
             metodo := "2_CELDAS"
             celdas_utilizadas := [c1, c2]
             timestamp := ahora } := by
  have h := estimar_2_celdas_suma_no_positiva db c1 c2 u1 u2 ahora h1 h2
    (by rw [hs1, hs2]; norm_num)
  rw [h, hdist]
  norm_num

/-- C4 witness: the concrete equatorial scenario `cA4`/`cB4`/`dbC4`. -/
theorem C4_dos_celdas_punto_medio_witness :
    estimar_ubicacion_2_celdas dbC4 [cA4, cB4] 0 =
      some { latitude := ((0 : ℝ) + 0) / 2
             longitude := ((0 : ℝ) + x0C4) / 2
             precision := 5
             metodo := "2_CELDAS"
             celdas_utilizadas := [cA4, cB4]
             timestamp := 0 } :=
  C4_dos_celdas_punto_medio dbC4 cA4 cB4 ⟨0, 0⟩ ⟨0, x0C4⟩ 0 rfl rfl rfl rfl dist_AB_C4

/-- C4 counterexample: in the concrete scenario (A at strength −60, B at
strength −90, towers exactly 10 km apart on the equator) the two-cell
fallback returns the midpoint, which is 5 km from A and 5 km from B — it is
NOT strictly closer to A's coordinate than to B's, refuting the claim as
stated (its precision clause, `5.0`, does hold). -/
theorem C4_counterexample :
    calcular_distancia 0 0 0 x0C4 = 10 ∧
    cA4.signal_strength = -60 ∧ cB4.signal_strength = -90 ∧
    (estimar_ubicacion_2_celdas dbC4 [cA4, cB4] 0).map
        (fun u => (u.latitude, u.longitude, u.precision)) = some (0, x0C4 / 2, 5) ∧
    calcular_distancia 0 (x0C4 / 2) 0 0 = 5 ∧
    calcular_distancia 0 (x0C4 / 2) 0 x0C4 = 5 ∧
    ¬ (calcular_distancia 0 (x0C4 / 2) 0 0 < calcular_distancia 0 (x0C4 / 2) 0 x0C4) := by
  have hest := estimar_2_celdas_suma_no_positiva dbC4 cA4 cB4 ⟨0, 0⟩ ⟨0, x0C4⟩ 0
    rfl rfl (by decide)
  refine ⟨dist_AB_C4, rfl, rfl, ?_, dist_mid_A_C4, dist_mid_B_C4, ?_⟩
  · rw [hest]
    simp only [Option.map_some', Option.some.injEq]
    norm_num [Prod.mk.injEq, dist_AB_C4]
  · rw [dist_mid_A_C4, dist_mid_B_C4]
    exact lt_irrefl 5

lemma total_senal_cast (celdas : List (CeldaGSM × Ubicacion)) :
    ((total_senal celdas : ℤ) : ℝ) = (pesos_centroide celdas).sum := by
  unfold total_senal pesos_centroide
  rw [Int.cast_list_sum, List.map_map]
  rfl

/-- With a positive weight sum, the centroid coordinates are the raw
signal-strength–weighted means (normalization does not change them). -/
lemma lat_centroide_total_pos (celdas : List (CeldaGSM × Ubicacion))
    (h : 0 < total_senal celdas) :
    lat_centroide celdas =
      npAverage (celdas.map (fun p => p.2.lat)) (pesos_centroide celdas) := by
  have hc : ((total_senal celdas : ℤ) : ℝ) ≠ 0 := by
    exact_mod_cast h.ne'
  unfold lat_centroide pesos_normalizados
  rw [if_pos h, npAverage_map_div _ _ _ hc]

lemma lon_centroide_total_pos (celdas : List (CeldaGSM × Ubicacion))
    (h : 0 < total_senal celdas) :
    lon_centroide celdas =
      npAverage (celdas.map (fun p => p.2.lon)) (pesos_centroide celdas) := by
  have hc : ((total_senal celdas : ℤ) : ℝ) ≠ 0 := by
    exact_mod_cast h.ne'
  unfold lon_centroide pesos_normalizados
  rw [if_pos h, npAverage_map_div _ _ _ hc]

/-- With a non-positive weight sum, the centroid coordinates are plain
(unweighted) means. -/
lemma lat_centroide_total_nonpos (celdas : List (CeldaGSM × Ubicacion))
    (h : ¬ 0 < total_senal celdas) (hne : celdas ≠ []) :
    lat_centroide celdas =
      (celdas.map (fun p => p.2.lat)).sum / (celdas.length : ℝ) := by
  unfold lat_centroide pesos_normalizados
  rw [if_neg h]
  have hlen : celdas.length = (celdas.map (fun p => p.2.lat)).length :=
    (List.length_map _ _).symm
  rw [hlen, npAverage_uniform _ (by simpa using hne), ← hlen]

lemma lon_centroide_total_nonpos (celdas : List (CeldaGSM × Ubicacion))
    (h : ¬ 0 < total_senal celdas) (hne : celdas ≠ []) :
    lon_centroide celdas =
      (celdas.map (fun p => p.2.lon)).sum / (celdas.length : ℝ) := by
  unfold lon_centroide pesos_normalizados
  rw [if_neg h]
  have hlen : celdas.length = (celdas.map (fun p => p.2.lon)).length :=
    (List.length_map _ _).symm
  rw [hlen, npAverage_uniform _ (by simpa using hne), ← hlen]

/-- C5 (amended): the centroid estimator falls back to equal weights exactly
when the SUM of the raw signal-strength weights is ≤ 0 (the source tests
`np.sum(pesos) > 0`), not when every individual weight is ≤ 0: with positive
sum the position is the raw-signal-weighted mean, with non-positive sum it
is the plain unweighted mean — even if some individual strength is
positive. -/
theorem C5_centroide_condicion_suma (celdas : List (CeldaGSM × Ubicacion)) (ahora : ℤ)
    (hne : celdas ≠ []) :
    (0 < total_senal celdas →
      (metodo_centroide celdas ahora).latitude =
          npAverage (celdas.map (fun p => p.2.lat)) (pesos_centroide celdas) ∧
        (metodo_centroide celdas ahora).longitude =
          npAverage (celdas.map (fun p => p.2.lon)) (pesos_centroide celdas)) ∧
    (total_senal celdas ≤ 0 →
      (metodo_centroide celdas ahora).latitude =
          (celdas.map (fun p => p.2.lat)).sum / (celdas.length : ℝ) ∧
        (metodo_centroide celdas ahora).longitude =
          (celdas.map (fun p => p.2.lon)).sum / (celdas.length : ℝ)) := by
  constructor
  · intro h
    exact ⟨lat_centroide_total_pos celdas h, lon_centroide_total_pos celdas h⟩
  · intro h
    exact ⟨lat_centroide_total_nonpos celdas (not_lt.mpr h) hne,
      lon_centroide_total_nonpos celdas (not_lt.mpr h) hne⟩

/-- A cell with positive signal strength (+10), for the C5 scenario. -/
def cPos5 : CeldaGSM :=
  { mcc := "0", mnc := "0", lac := "0", cell_id := "1", arfcn := 0, bsic := 0
    signal_strength := 10, latitude := 0, longitude := 0, timestamp := 0
    tipo_celda := "BCCH" }

/-- A cell with negative signal strength (−20), for the C5 scenario. -/
def cNeg5 : CeldaGSM :=
  { mcc := "0", mnc := "0", lac := "0", cell_id := "2", arfcn := 0, bsic := 0
    signal_strength := -20, latitude := 0, longitude := 0, timestamp := 0
    tipo_celda := "BCCH" }

/-- Resolved pairs with mixed-sign strengths summing to −10: one weight is
positive but the sum is not. -/
noncomputable def ejemploC5 : List (CeldaGSM × Ubicacion) :=
  [(cPos5, ⟨0, 0⟩), (cNeg5, ⟨1, 0⟩)]

/-- C5 counterexample: on a 2-cell input where one signal strength is
positive (+10) but the sum (+10 − 20 = −10) is not, the centroid does NOT
use the raw normalized weights (which would put the latitude at 2): it
falls back to equal weights and returns latitude 1/2.  This refutes "the
raw weights are used whenever at least one signal strength is positive". -/
theorem C5_counterexample :
    ¬ (∀ (celdas : List (CeldaGSM × Ubicacion)) (ahora : ℤ), 2 ≤ celdas.length →
        (∃ p ∈ celdas, 0 < p.1.signal_strength) →
        (metodo_centroide celdas ahora).latitude =
          npAverage (celdas.map (fun p => p.2.lat)) (pesos_centroide celdas)) := by
  intro hclaim
  have hmem : (cPos5, (⟨0, 0⟩ : Ubicacion)) ∈ ejemploC5 := by
    simp [ejemploC5]
  have h := hclaim ejemploC5 0 (by simp [ejemploC5]) ⟨(cPos5, ⟨0, 0⟩), hmem, by decide⟩
  have htot : ¬ 0 < total_senal ejemploC5 := by decide
  have hlat : (metodo_centroide ejemploC5 0).latitude = 1 / 2 := by
    show lat_centroide ejemploC5 = 1 / 2
    rw [lat_centroide_total_nonpos ejemploC5 htot (by simp [ejemploC5])]
    norm_num [ejemploC5]
  have hrhs : npAverage (ejemploC5.map (fun p => p.2.lat)) (pesos_centroide ejemploC5) = 2 := by
    norm_num [npAverage, pesos_centroide, ejemploC5, cPos5, cNeg5]
  rw [h, hrhs] at hlat
  norm_num at hlat

/-- C5 witness: the amended sum-based dichotomy evaluated on the concrete
mixed-sign input. -/
theorem C5_centroide_condicion_suma_witness :
    (0 < total_senal ejemploC5 →
      (metodo_centroide ejemploC5 0).latitude =
          npAverage (ejemploC5.map (fun p => p.2.lat)) (pesos_centroide ejemploC5) ∧
        (metodo_centroide ejemploC5 0).longitude =
          npAverage (ejemploC5.map (fun p => p.2.lon)) (pesos_centroide ejemploC5)) ∧
    (total_senal ejemploC5 ≤ 0 →
      (metodo_centroide ejemploC5 0).latitude =
          (ejemploC5.map (fun p => p.2.lat)).sum / (ejemploC5.length : ℝ) ∧
        (metodo_centroide ejemploC5 0).longitude =
          (ejemploC5.map (fun p => p.2.lon)).sum / (ejemploC5.length : ℝ)) :=
  C5_centroide_condicion_suma ejemploC5 0 (by simp [ejemploC5])

/-- C7: on ≥ 2 resolved pairs with positive signal strengths, the weighted
centroid (which in the source returns unconditionally — it has no failure
path) produces a latitude and longitude inside any bounding box containing
all the input tower coordinates. -/
theorem C7_centroide_caja (celdas : List (CeldaGSM × Ubicacion)) (ahora : ℤ)
    (hlen : 2 ≤ celdas.length) (hpos : ∀ p ∈ celdas, 0 < p.1.signal_strength)
    (L U Lo Uo : ℝ)
    (hlat : ∀ p ∈ celdas, L ≤ p.2.lat ∧ p.2.lat ≤ U)
    (hlon : ∀ p ∈ celdas, Lo ≤ p.2.lon ∧ p.2.lon ≤ Uo) :
    L ≤ (metodo_centroide celdas ahora).latitude ∧
      (metodo_centroide celdas ahora).latitude ≤ U ∧
      Lo ≤ (metodo_centroide celdas ahora).longitude ∧
      (metodo_centroide celdas ahora).longitude ≤ Uo := by
  have hne : celdas ≠ [] := by
    intro h
    rw [h] at hlen
    simp at hlen
  have htot : 0 < total_senal celdas := by
    unfold total_senal
    apply List.sum_pos
    · intro z hz
      obtain ⟨p, hp, rfl⟩ := List.mem_map.mp hz
      exact hpos p hp
    · simpa using hne
  have hsum : 0 < (pesos_centroide celdas).sum := by
    rw [← total_senal_cast]
    exact_mod_cast htot
  have hw : ∀ w ∈ pesos_centroide celdas, 0 ≤ w := by
    intro w hw
    obtain ⟨p, hp, rfl⟩ := List.mem_map.mp hw
    exact_mod_cast (hpos p hp).le
  have hlen1 : (pesos_centroide celdas).length = (celdas.map (fun p => p.2.lat)).length := by
    simp [pesos_centroide]
  have hlen2 : (pesos_centroide celdas).length = (celdas.map (fun p => p.2.lon)).length := by
    simp [pesos_centroide]
  have hA : (metodo_centroide celdas ahora).latitude = lat_centroide celdas := rfl
  have hB : (metodo_centroide celdas ahora).longitude = lon_centroide celdas := rfl
  rw [hA, hB, lat_centroide_total_pos celdas htot, lon_centroide_total_pos celdas htot]
  refine ⟨?_, ?_, ?_, ?_⟩
  · refine le_npAverage _ _ L hlen1 hw hsum ?_
    intro x hx
    obtain ⟨p, hp, rfl⟩ := List.mem_map.mp hx
    exact (hlat p hp).1
  · refine npAverage_le _ _ U hlen1 hw hsum ?_
    intro x hx
    obtain ⟨p, hp, rfl⟩ := List.mem_map.mp hx
    exact (hlat p hp).2
  · refine le_npAverage _ _ Lo hlen2 hw hsum ?_
    intro x hx
    obtain ⟨p, hp, rfl⟩ := List.mem_map.mp hx
    exact (hlon p hp).1
  · refine npAverage_le _ _ Uo hlen2 hw hsum ?_
    intro x hx
    obtain ⟨p, hp, rfl⟩ := List.mem_map.mp hx
    exact (hlon p hp).2

/-- Two resolved pairs with positive strengths at the corners of the unit
box, for the C7 witness. -/
noncomputable def ejemploC7 : List (CeldaGSM × Ubicacion) :=
  [(cPos5, ⟨0, 0⟩), (cPos5, ⟨1, 1⟩)]

/-- C7 witness: the centroid of the two unit-box towers stays in the unit
box. -/
theorem C7_centroide_caja_witness :
    (0 : ℝ) ≤ (metodo_centroide ejemploC7 0).latitude ∧
      (metodo_centroide ejemploC7 0).latitude ≤ 1 ∧
      (0 : ℝ) ≤ (metodo_centroide ejemploC7 0).longitude ∧
      (metodo_centroide ejemploC7 0).longitude ≤ 1 :=
  C7_centroide_caja ejemploC7 0 (by simp [ejemploC7])
    (by intro p hp; simp [ejemploC7] at hp; rcases hp with rfl | rfl <;> norm_num [cPos5])
    0 1 0 1
    (by intro p hp; simp [ejemploC7] at hp; rcases hp with rfl | rfl <;> norm_num)
    (by intro p hp; simp [ejemploC7] at hp; rcases hp with rfl | rfl <;> norm_num)

lemma pesos_combinar_pos (rs : List UbicacionEstimada)
    (hp : ∀ r ∈ rs, 0 ≤ r.precision) : ∀ w ∈ pesos_combinar rs, 0 < w := by
  intro w hw
  obtain ⟨r, hr, rfl⟩ := List.mem_map.mp hw
  have h := hp r hr
  have hden : (0 : ℝ) < r.precision + 0.001 := by
    have : (0.001 : ℝ) > 0 := by norm_num
    linarith
  exact one_div_pos.mpr hden

lemma pesos_combinar_sum_pos (rs : List UbicacionEstimada) (hne : rs ≠ [])
    (hp : ∀ r ∈ rs, 0 ≤ r.precision) : 0 < (pesos_combinar rs).sum := by
  apply List.sum_pos
  · exact pesos_combinar_pos rs hp
  · simpa [pesos_combinar] using hne

lemma npAverage_combinar_norm (rs : List UbicacionEstimada) (xs : List ℝ)
    (h : (pesos_combinar rs).sum ≠ 0) :
    npAverage xs (pesos_combinar_norm rs) = npAverage xs (pesos_combinar rs) := by
  unfold pesos_combinar_norm
  exact npAverage_map_div _ _ _ h

/-- C6: given a non-empty input of estimates with non-negative precisions,
the combiner weights each input by `1/(precision + 0.001)` (then normalizes,
which leaves the weighted means unchanged): its position is the weighted
mean of the inputs' latitudes/longitudes, its precision the weighted mean of
the input precisions, its method tag `"COMBINADO"`, and its measurement list
the concatenation of the inputs' lists without deduplication.  In
particular, combining inputs with precisions 1.0 and 0.001 puts the result
far closer (more than 499× closer) to the 0.001-precision input. -/
theorem C6_combinador (rs : List UbicacionEstimada) (ahora : ℤ) (hne : rs ≠ [])
    (hp : ∀ r ∈ rs, 0 ≤ r.precision) :
    (combinar_resultados rs ahora).latitude =
        npAverage (rs.map (fun r => r.latitude)) (pesos_combinar rs) ∧
      (combinar_resultados rs ahora).longitude =
        npAverage (rs.map (fun r => r.longitude)) (pesos_combinar rs) ∧
      (combinar_resultados rs ahora).precision =
        npAverage (rs.map (fun r => r.precision)) (pesos_combinar rs) ∧
      (combinar_resultados rs ahora).metodo = "COMBINADO" ∧
      (combinar_resultados rs ahora).celdas_utilizadas =
        (rs.map (fun r => r.celdas_utilizadas)).flatten ∧
      (∀ e1 e2 : UbicacionEstimada, e1.precision = 1 → e2.precision = 0.001 →
        e1.latitude ≠ e2.latitude →
        499 * |(combinar_resultados [e1, e2] ahora).latitude - e2.latitude| <
          |(combinar_resultados [e1, e2] ahora).latitude - e1.latitude|) := by
  have hsum : (pesos_combinar rs).sum ≠ 0 := (pesos_combinar_sum_pos rs hne hp).ne'
  refine ⟨npAverage_combinar_norm rs _ hsum, npAverage_combinar_norm rs _ hsum,
    npAverage_combinar_norm rs _ hsum, rfl, rfl, ?_⟩
  intro e1 e2 h1p h2p hne12
  have hW : pesos_combinar [e1, e2] = [(1000 : ℝ) / 1001, 500] := by
    simp only [pesos_combinar, List.map_cons, List.map_nil, h1p, h2p]
    norm_num
  have hsum2 : (pesos_combinar [e1, e2]).sum ≠ 0 := by
    rw [hW]
    norm_num
  have hlat : (combinar_resultados [e1, e2] ahora).latitude =
      ((1000 : ℝ) / 1001 * e1.latitude + 500 * e2.latitude) / (1000 / 1001 + 500) := by
    have hstep : (combinar_resultados [e1, e2] ahora).latitude =
        npAverage ([e1, e2].map (fun r => r.latitude)) (pesos_combinar [e1, e2]) :=
      npAverage_combinar_norm [e1, e2] _ hsum2
    rw [hstep, hW]
    simp [npAverage]
  have h2' : (combinar_resultados [e1, e2] ahora).latitude - e2.latitude =
      (2 / 1003) * (e1.latitude - e2.latitude) := by
    rw [hlat]
    field_simp
    ring
  have h1' : e1.latitude - (combinar_resultados [e1, e2] ahora).latitude =
      (1001 / 1003) * (e1.latitude - e2.latitude) := by
    rw [hlat]
    field_simp
    ring
  have habs2 : |(combinar_resultados [e1, e2] ahora).latitude - e2.latitude| =
      (2 / 1003) * |e1.latitude - e2.latitude| := by
    rw [h2', abs_mul]
    norm_num
  have habs1 : |(combinar_resultados [e1, e2] ahora).latitude - e1.latitude| =
      (1001 / 1003) * |e1.latitude - e2.latitude| := by
    rw [abs_sub_comm, h1', abs_mul]
    norm_num
  have hΔ : 0 < |e1.latitude - e2.latitude| := abs_pos.mpr (sub_ne_zero.mpr hne12)
  rw [habs1, habs2]
  linarith

/-- A concrete estimate with precision 1.0 at latitude 0. -/
noncomputable def est6a : UbicacionEstimada :=
  { latitude := 0, longitude := 0, precision := 1, metodo := "RSSI"
    celdas_utilizadas := [celdaW], timestamp := 0 }

/-- A concrete estimate with precision 0.001 at latitude 1. -/
noncomputable def est6b : UbicacionEstimada :=
  { latitude := 1, longitude := 0, precision := 0.001, metodo := "TOA"
    celdas_utilizadas := [celdaW], timestamp := 0 }

/-- C6 witness: the combiner applied to the concrete pair of estimates with
precisions 1.0 and 0.001. -/
theorem C6_combinador_witness :
    (combinar_resultados [est6a, est6b] 0).latitude =
        npAverage ([est6a, est6b].map (fun r => r.latitude)) (pesos_combinar [est6a, est6b]) ∧
      (combinar_resultados [est6a, est6b] 0).longitude =
        npAverage ([est6a, est6b].map (fun r => r.longitude)) (pesos_combinar [est6a, est6b]) ∧
      (combinar_resultados [est6a, est6b] 0).precision =
        npAverage ([est6a, est6b].map (fun r => r.precision)) (pesos_combinar [est6a, est6b]) ∧
      (combinar_resultados [est6a, est6b] 0).metodo = "COMBINADO" ∧
      (combinar_resultados [est6a, est6b] 0).celdas_utilizadas =
        ([est6a, est6b].map (fun r => r.celdas_utilizadas)).flatten ∧
      (∀ e1 e2 : UbicacionEstimada, e1.precision = 1 → e2.precision = 0.001 →
        e1.latitude ≠ e2.latitude →
        499 * |(combinar_resultados [e1, e2] 0).latitude - e2.latitude| <
          |(combinar_resultados [e1, e2] 0).latitude - e1.latitude|) :=
  C6_combinador [est6a, est6b] 0 (by simp)
    (by
      intro r hr
      simp at hr
      rcases hr with rfl | rfl <;> norm_num [est6a, est6b])

lemma funcion_error_rssi_nonneg (celdas : List (CeldaGSM × Ubicacion)) (pos : ℝ × ℝ) :
    0 ≤ funcion_error_rssi celdas pos := by
  unfold funcion_error_rssi
  apply List.sum_nonneg
  intro x hx
  obtain ⟨p, hp, rfl⟩ := List.mem_map.mp hx
  exact abs_nonneg _

lemma funcion_error_toa_nonneg (tiempos : List (ℝ × ℝ × ℝ)) (pos : ℝ × ℝ) :
    0 ≤ funcion_error_toa tiempos pos := by
  unfold funcion_error_toa
  apply List.sum_nonneg
  intro x hx
  obtain ⟨t, ht, rfl⟩ := List.mem_map.mp hx
  exact abs_nonneg _

/-- A cell with signal strength −5, paired against `cPos5` (+10) so that the
sum is positive (+5) but the normalized centroid weights are [2, −1]. -/
def cNeg9 : CeldaGSM :=
  { mcc := "0", mnc := "0", lac := "0", cell_id := "3", arfcn := 0, bsic := 0
    signal_strength := -5, latitude := 0, longitude := 0, timestamp := 0
    tipo_celda := "BCCH" }

/-- Resolved pairs with strengths [+10, −5] at latitudes 0 and 1: the sum is
positive, so the code normalizes to mixed-sign weights [2, −1]. -/
noncomputable def ejemploC9 : List (CeldaGSM × Ubicacion) :=
  [(cPos5, ⟨0, 0⟩), (cNeg9, ⟨1, 0⟩)]

/-- C9 fails in the source: LocationEstimates are claimed to always have
`precision ≥ 0`, but on the reachable input `ejemploC9` (signal strengths
+10 and −5, whose positive sum selects the normalized mixed-sign weights
[2, −1]) the centroid's weighted-variance radicand evaluates to −2 < 0, so
`np.sqrt` returns nan and the produced precision is not a non-negative
number.  This theorem evaluates the embedded radicand at that failing
input. -/
theorem C9_radicando_centroide_negativo :
    0 < total_senal ejemploC9 ∧ radicando_centroide ejemploC9 = -2 ∧
      radicando_centroide ejemploC9 < 0 := by
  have htot : (0 : ℤ) < total_senal ejemploC9 := by decide
  have hlat : lat_centroide ejemploC9 = -1 := by
    norm_num [lat_centroide, npAverage, pesos_normalizados, total_senal, pesos_centroide,
      ejemploC9, cPos5, cNeg9]
  have hlon : lon_centroide ejemploC9 = 0 := by
    norm_num [lon_centroide, npAverage, pesos_normalizados, total_senal, pesos_centroide,
      ejemploC9, cPos5, cNeg9]
  have hrad : radicando_centroide ejemploC9 = -2 := by
    rw [radicando_centroide, hlat, hlon]
    norm_num [npAverage, pesos_normalizados, total_senal, pesos_centroide,
      ejemploC9, cPos5, cNeg9]
  exact ⟨htot, hrad, by rw [hrad]; norm_num⟩

/-- A trivial optimizer used in witnesses: reports success at the start
point. -/
def optW : Optimizador := ⟨fun _ x0 => ⟨x0, true⟩⟩

/-- C10: after any ingest call completes, no subject's Active Window —
for ANY subject key, not only the ingested one — holds a measurement whose
`observedAt` is more than 5 minutes (300 s) before the call time; the final
purge pass filters every IMSI's window. -/
theorem C10_purga_todas_las_ventanas (opt : Optimizador) (db : String → Option Ubicacion)
    (st : AnalizadorState) (imsi : String) (celda : CeldaGSM) (ahora : ℤ)
    (s : String) (m : CeldaGSM)
    (hm : m ∈ (procesar_medicion_celda opt db st imsi celda ahora).mediciones_actuales s) :
    ahora - m.timestamp ≤ 300 := by
  unfold procesar_medicion_celda at hm
  dsimp only at hm
  unfold limpiar_mediciones_antiguas at hm
  rw [List.mem_filter] at hm
  have h := of_decide_eq_true hm.2
  linarith

/-- C10 witness: a fresh measurement survives the purge and satisfies the
bound. -/
theorem C10_purga_todas_las_ventanas_witness :
    celdaW ∈ (procesar_medicion_celda optW (fun _ => none) estadoInicial "X" celdaW
        0).mediciones_actuales "X" ∧
      (0 : ℤ) - celdaW.timestamp ≤ 300 := by
  have hmem : celdaW ∈ (procesar_medicion_celda optW (fun _ => none) estadoInicial "X" celdaW
      0).mediciones_actuales "X" := by
    simp [procesar_medicion_celda, estadoInicial, limpiar_mediciones_antiguas, actualizar,
      celdaW]
  exact ⟨hmem,
    C10_purga_todas_las_ventanas optW (fun _ => none) estadoInicial "X" celdaW 0 "X" celdaW hmem⟩

/-- C1 (amended): stale entries are purged at the END of each ingest call,
AFTER the estimation attempt, not before it: the list the call triangulates
over is the subject's previous window plus the new measurement, unpurged
(so it can still contain entries older than 5 minutes relative to the call
time — see the counterexample), while the window stored when the call
returns is that list with every entry of age ≥ 5 minutes removed. -/
theorem C1_purga_despues_de_estimar (opt : Optimizador) (db : String → Option Ubicacion)
    (st : AnalizadorState) (imsi : String) (celda : CeldaGSM) (ahora : ℤ) :
    (procesar_medicion_celda opt db st imsi celda ahora).mediciones_actuales imsi =
        (st.mediciones_actuales imsi ++ [celda]).filter
          (fun c => decide (ahora - c.timestamp < 300)) ∧
      (procesar_medicion_celda opt db st imsi celda ahora).ubicaciones_estimadas =
        st.ubicaciones_estimadas ++
          (if 2 ≤ (st.mediciones_actuales imsi ++ [celda]).length then
              triangular_ubicacion opt db (st.mediciones_actuales imsi ++ [celda]) ahora
            else none).toList := by
  constructor
  · simp [procesar_medicion_celda, limpiar_mediciones_antiguas, actualizar]
  · rfl

/-- The second, stale-window measurement of the C1 scenario: observed at
t = 301 s, same network as `cA4` but cell id 2, so it resolves in `dbC4`. -/
def cNuevo1 : CeldaGSM :=
  { mcc := "1", mnc := "1", lac := "1", cell_id := "2", arfcn := 0, bsic := 0
    signal_strength := -90, latitude := 0, longitude := 0, timestamp := 301
    tipo_celda := "BCCH" }

/-- C1 counterexample: ingest `cA4` (observedAt 0) at time 0, then ingest
`cNuevo1` (observedAt 301) at time 301.  The second call's estimation runs
BEFORE the purge, so the produced trajectory estimate uses `cA4`, a
measurement 301 s — more than 5 minutes — older than the call time,
refuting "no estimator is ever invoked on a measurement older than 5
minutes". -/
theorem C1_counterexample :
    (((procesar_medicion_celda optW dbC4
          (procesar_medicion_celda optW dbC4 estadoInicial "X" cA4 0)
          "X" cNuevo1 301).trayectorias "X").map (fun u => u.celdas_utilizadas) =
        [[cA4, cNuevo1]]) ∧
      (300 : ℤ) < 301 - cA4.timestamp := by
  constructor
  · rfl
  · norm_num [cA4]

/-- A measurement whose identifier fields are all empty (malformed). -/
def celdaMal : CeldaGSM :=
  { mcc := "", mnc := "", lac := "", cell_id := "", arfcn := 0, bsic := 0
    signal_strength := 0, latitude := 0, longitude := 0, timestamp := 0
    tipo_celda := "" }

/-- C3 counterexample: ingestion performs no validation at all.  A
measurement with empty (malformed) identifier fields is NOT rejected and
does NOT leave the state unchanged: ingesting it mutates the Measurement
History (the key "---" gains an entry), refuting the claimed
reject-and-leave-unchanged behaviour. -/
theorem C3_counterexample :
    ¬ (∀ (opt : Optimizador) (db : String → Option Ubicacion) (st : AnalizadorState)
        (imsi : String) (celda : CeldaGSM) (ahora : ℤ),
        (celda.mcc = "" ∨ celda.mnc = "" ∨ celda.lac = "" ∨ celda.cell_id = "") →
        procesar_medicion_celda opt db st imsi celda ahora = st) := by
  intro hclaim
  have h := hclaim optW (fun _ => none) estadoInicial "X" celdaMal 0 (Or.inl rfl)
  have h2 := congrArg (fun s : AnalizadorState => s.historial_mediciones "---") h
  dsimp only at h2
  have h3 : (procesar_medicion_celda optW (fun _ => none) estadoInicial "X" celdaMal
      0).historial_mediciones "---" = [celdaMal] := rfl
  rw [h3] at h2
  have h4 : estadoInicial.historial_mediciones "---" = ([] : List CeldaGSM) := rfl
  rw [h4] at h2
  exact List.cons_ne_nil _ _ h2

/-- C3 (amended): the ingest call validates nothing: EVERY measurement —
malformed identifier fields included — is unconditionally recorded into the
Measurement History under the key built from its identifier fields, exactly
as a well-formed one would be. -/
theorem C3_sin_validacion (opt : Optimizador) (db : String → Option Ubicacion)
    (st : AnalizadorState) (imsi : String) (celda : CeldaGSM) (ahora : ℤ) :
    (procesar_medicion_celda opt db st imsi celda ahora).historial_mediciones =
      agregar_medicion_celda st.historial_mediciones celda := rfl
